import Mathlib

/-!
Verification development for the solana-meme-coin-bot trading pipeline
(beta_version/code/solana_memecoin_bot.py, beta_version/code/trading/solana_trader.py,
beta_version/code/config.py).

Python float arithmetic is embedded as exact rational arithmetic over ℚ;
timestamps are embedded as rational hours (bot pipeline) or natural-number
seconds (discovery dedup, confirmation polling); Python dicts keyed by token
address are embedded as association lists; Python string constants are kept
as `String` literals.
-/

/-- Embeds the `TradingConfig` dataclass of `config.py` (field defaults are the
source defaults). -/
structure TradingConfig where
  buy_amount_sol : ℚ := 1.5
  max_buy_amount_sol : ℚ := 2.0
  min_buy_amount_sol : ℚ := 1.0
  buy_slippage : ℚ := 0.20
  sell_slippage : ℚ := 0.25
  take_profit_multiplier : ℚ := 10.0
  moonbag_percentage : ℚ := 0.15
  stop_loss_percentage : ℚ := 0.50
  max_positions : ℕ := 5
  position_size_percentage : ℚ := 0.2

/-- The global `trading_config = TradingConfig()` instance of `config.py`. -/
def trading_config : TradingConfig := {}

/-- Embeds the `FilterConfig` dataclass of `config.py`. -/
structure FilterConfig where
  min_safety_score : ℤ := 80
  min_market_cap : ℚ := 10000
  max_market_cap : ℚ := 1000000
  min_liquidity : ℚ := 5000
  require_locked_liquidity : Bool := true
  require_disabled_mint : Bool := true
  min_volume_24h : ℚ := 1000

/-- The global `filter_config = FilterConfig()` instance of `config.py`. -/
def filter_config : FilterConfig := {}

/-- Embeds the `market_data` dict: each field holds the value that
`market_data.get(key, default)` would return, so `emptyMarketData` below is the
embedding of the empty dict `{}` with the defaults used at the access sites
(`_check_market_filters` and `_calculate_market_score`). -/
structure MarketData where
  market_cap : ℚ := 0
  liquidity : ℚ := 0
  volume_24h : ℚ := 0
  age_hours : ℚ := 24
  holder_count : ℚ := 1
  liquidity_locked : Bool := false
  mint_disabled : Bool := false
deriving DecidableEq

/-- The empty market-data dict `{}` (every `.get` falls back to its default). -/
def emptyMarketData : MarketData := {}

/-- Embeds `SolanaMemecoinBot._check_market_filters` (solana_memecoin_bot.py,
lines 553-584). -/
def check_market_filters (fc : FilterConfig) (md : MarketData) : Bool :=
  if md.market_cap < fc.min_market_cap ∨ md.market_cap > fc.max_market_cap then false
  else if md.liquidity < fc.min_liquidity then false
  else if md.volume_24h < fc.min_volume_24h then false
  else if fc.require_locked_liquidity ∧ md.liquidity_locked = false then false
  else if fc.require_disabled_mint ∧ md.mint_disabled = false then false
  else true

/-- Embeds `SolanaMemecoinBot._calculate_market_score` (solana_memecoin_bot.py,
lines 613-642): weighted blend of normalized volume, liquidity, inverse age and
holder count, with the running sum finally capped at 1.0. -/
def calculate_market_score (md : MarketData) : ℚ :=
  let volume_score := min (md.volume_24h / 10000) 1.0
  let liquidity_score := min (md.liquidity / 50000) 1.0
  let age_score := max 0 (1.0 - md.age_hours / 24)
  let holder_score := min (md.holder_count / 1000) 1.0
  min (volume_score * 0.3 + liquidity_score * 0.3 + age_score * 0.2 + holder_score * 0.2) 1.0

/-- Embeds the combined-score expression of `_get_recommendation`
(solana_memecoin_bot.py, line 600):
`(safety_score * 0.4 + ai_score * 100 * 0.4 + market_score * 0.2) / 100`. -/
def combined_score (safety_score : ℤ) (ai_score market_score : ℚ) : ℚ :=
  ((safety_score : ℚ) * 0.4 + ai_score * 100 * 0.4 + market_score * 0.2) / 100

/-- The combined-score formula as the specification words it:
`0.4·(safety_score/100) + 0.4·(ai_probability) + 0.2·(market_condition_score)`.
Written from the spec only, for comparison against `combined_score`. -/
def spec_combined_score (safety_score : ℤ) (ai_score market_score : ℚ) : ℚ :=
  0.4 * ((safety_score : ℚ) / 100) + 0.4 * ai_score + 0.2 * market_score

/-- Embeds `SolanaMemecoinBot._get_recommendation` (solana_memecoin_bot.py,
lines 586-611); `ai_score` is `ai_prediction.get('success_probability', 0)`. -/
def get_recommendation (fc : FilterConfig) (safety_score : ℤ) (md : MarketData)
    (ai_score : ℚ) : String :=
  if safety_score < fc.min_safety_score then "PASS"
  else
    let market_score := calculate_market_score md
    let c := combined_score safety_score ai_score market_score
    if c ≥ 0.75 then "BUY"
    else if c ≥ 0.6 then "MONITOR"
    else "PASS"

/-- Embeds the `TokenAnalysis` dataclass (the fields the claims are about);
`ai_prediction = none` embeds the empty dict `{}`, `some p` a prediction dict
whose `success_probability` is `p`. -/
structure TokenAnalysis where
  safety_score : ℤ
  market_data : MarketData
  ai_prediction : Option ℚ
  filter_passed : Bool
  recommendation : String
deriving DecidableEq

/-- `get_safety_score` resolves every upstream failure internally to `0`
(token_analyzer.py, lines 64-76: 404, non-200 status and exceptions all
return 0), so a failed fetch (`none`) yields 0. -/
def resolve_safety : Option ℤ → ℤ
  | some s => s
  | none => 0

/-- `get_market_data` resolves every upstream failure internally to the empty
dict `{}` (token_analyzer.py, lines 109-111). -/
def resolve_market : Option MarketData → MarketData
  | some md => md
  | none => emptyMarketData

/-- `AIPredictor.predict_success` resolves every internal failure to a dict
with `success_probability = 0.5` (ai_predictor.py, lines 132-136). -/
def resolve_ai : Option ℚ → ℚ
  | some p => p
  | none => 0.5

/-- Embeds `SolanaMemecoinBot._analyze_token` (solana_memecoin_bot.py,
lines 482-551), with each upstream fetch given as `some` data or `none` for a
data-source failure (which the fetchers resolve internally, see the
`resolve_*` functions). -/
def analyze_token (fc : FilterConfig) (safetyFetch : Option ℤ)
    (marketFetch : Option MarketData) (aiFetch : Option ℚ) : TokenAnalysis :=
  let safety_score := resolve_safety safetyFetch
  if safety_score < fc.min_safety_score then
    { safety_score := safety_score, market_data := emptyMarketData, ai_prediction := none,
      filter_passed := false, recommendation := "PASS" }
  else
    let market_data := resolve_market marketFetch
    if check_market_filters fc market_data = false then
      { safety_score := safety_score, market_data := market_data, ai_prediction := none,
        filter_passed := false, recommendation := "PASS" }
    else
      let ai := resolve_ai aiFetch
      let recommendation := get_recommendation fc safety_score market_data ai
      { safety_score := safety_score, market_data := market_data, ai_prediction := some ai,
        filter_passed := (recommendation == "BUY") || (recommendation == "MONITOR"),
        recommendation := recommendation }

/-- Embeds the `Position` dataclass (solana_memecoin_bot.py, lines 61-74);
`entry_hours` is the entry timestamp measured in hours. -/
structure Position where
  token_address : String
  symbol : String
  entry_price : ℚ
  current_price : ℚ
  amount_sol : ℚ
  tokens_held : ℚ
  entry_hours : ℚ
  status : String
  pnl_percent : ℚ := 0
  stop_loss_price : ℚ := 0
  take_profit_price : ℚ := 0
deriving DecidableEq

/-- The fields of the buy `TradeResult` dict consumed by
`_execute_buy_order`. -/
structure BuyResult where
  success : Bool
  price : ℚ
  tokens_received : ℚ
deriving DecidableEq

/-- The `Position` constructed by `_execute_buy_order` on a successful buy
(solana_memecoin_bot.py, lines 699-713), including the stop-loss and
take-profit prices set right after construction. -/
def mk_position (tc : TradingConfig) (now : ℚ) (addr sym : String) (r : BuyResult) : Position :=
  { token_address := addr, symbol := sym, entry_price := r.price, current_price := r.price,
    amount_sol := min tc.buy_amount_sol tc.max_buy_amount_sol,
    tokens_held := r.tokens_received, entry_hours := now, status := "OPEN",
    pnl_percent := 0,
    stop_loss_price := r.price * (1 - tc.stop_loss_percentage),
    take_profit_price := r.price * tc.take_profit_multiplier }

/-- Embeds `SolanaMemecoinBot._execute_buy_order` (solana_memecoin_bot.py,
lines 674-738) acting on the `active_positions` dict (an association list in
insertion order): reject if a position for the address already exists,
otherwise insert the new position when the trade result reports success. -/
def execute_buy_order (tc : TradingConfig) (now : ℚ) (ps : List Position)
    (addr sym : String) (result : BuyResult) : List Position :=
  if (ps.find? (fun p => p.token_address == addr)).isSome then ps
  else if result.success then ps ++ [mk_position tc now addr sym result]
  else ps

/-- Embeds `SolanaMemecoinBot._check_exit_conditions` (solana_memecoin_bot.py,
lines 772-792); `now` is the current time in hours, so `now - p.entry_hours`
is the `hours_held` of the source. -/
def check_exit_conditions (now : ℚ) (p : Position) : Bool × String :=
  if p.current_price ≥ p.take_profit_price then (true, "TAKE_PROFIT")
  else if p.current_price ≤ p.stop_loss_price then (true, "STOP_LOSS")
  else if now - p.entry_hours ≥ 24 then (true, "TIME_LIMIT")
  else (false, "")

/-- Embeds the sell-fraction choice of `_execute_sell_order`
(solana_memecoin_bot.py, lines 797-803). -/
def sell_percentage (tc : TradingConfig) (exit_reason : String) : ℚ :=
  if exit_reason == "TAKE_PROFIT" then 1.0 - tc.moonbag_percentage else 1.0

/-- Embeds the position update of a successful `_execute_sell_order`
(solana_memecoin_bot.py, lines 814-826): a full sale (`sell_percentage == 1.0`)
closes the position and deletes it from `active_positions` (`none`), a partial
sale keeps it at `PARTIAL_CLOSE` scaled down to the moonbag. -/
def apply_sell (tc : TradingConfig) (exit_reason : String) (p : Position) : Option Position :=
  if sell_percentage tc exit_reason = 1.0 then none
  else some { p with
      status := "PARTIAL_CLOSE",
      tokens_held := p.tokens_held * tc.moonbag_percentage,
      amount_sol := p.amount_sol * tc.moonbag_percentage }

/-- Embeds the price refresh of `_monitor_positions` (solana_memecoin_bot.py,
lines 754-758): the price and PnL are updated only when `get_token_price`
returns a truthy value (`None` and `0.0` are both falsy in Python). -/
def refresh_price (price : Option ℚ) (p : Position) : Position :=
  match price with
  | some pr =>
      if pr ≠ 0 then
        { p with current_price := pr,
                 pnl_percent := (pr - p.entry_price) / p.entry_price * 100 }
      else p
  | none => p

/-- Embeds one position's handling in a `_monitor_positions` tick
(solana_memecoin_bot.py, lines 750-764): positions whose status is not `OPEN`
are skipped unchanged; otherwise the price is refreshed, exit conditions are
checked on the refreshed position, and a triggered exit runs
`_execute_sell_order` (`sellOk` tells whether the venue sell succeeds; on a
sell failure the position is left as refreshed). `none` means the position was
deleted from `active_positions`. -/
def monitor_position (tc : TradingConfig) (now : ℚ) (price : Option ℚ) (sellOk : Bool)
    (p : Position) : Option Position :=
  if p.status ≠ "OPEN" then some p
  else
    let p1 := refresh_price price p
    let ec := check_exit_conditions now p1
    if ec.1 then (if sellOk then apply_sell tc ec.2 p1 else some p1)
    else some p1

/-- One full `_monitor_positions` tick over the `active_positions` dict. -/
def monitor_tick (tc : TradingConfig) (now : ℚ) (oracle : String → Option ℚ)
    (sellOk : String → Bool) (ps : List Position) : List Position :=
  ps.filterMap (fun p => monitor_position tc now (oracle p.token_address) (sellOk p.token_address) p)

/-- An externally scheduled event of the trading pipeline: one trading-queue
item handled by `_process_trading`, or one `_monitor_positions` tick. The
`paused` flag, current time, venue trade results and price lookups are the
event's environment. -/
inductive Event where
  | trade (paused : Bool) (now : ℚ) (addr sym : String) (result : BuyResult)
  | monitor (paused : Bool) (now : ℚ) (oracle : String → Option ℚ) (sellOk : String → Bool)

/-- One pipeline step on the `active_positions` state: `_process_trading`
(solana_memecoin_bot.py, lines 644-672: skip when paused, skip when the
position cap is reached, otherwise `_execute_buy_order`) or a
`_monitor_positions` tick (skipped when paused). -/
def step (tc : TradingConfig) (ps : List Position) : Event → List Position
  | Event.trade paused now addr sym result =>
      if paused then ps
      else if ps.length ≥ tc.max_positions then ps
      else execute_buy_order tc now ps addr sym result
  | Event.monitor paused now oracle sellOk =>
      if paused then ps
      else monitor_tick tc now oracle sellOk ps

/-- The `active_positions` state after a sequence of pipeline events, starting
from the empty dict. -/
def run (tc : TradingConfig) (events : List Event) : List Position :=
  events.foldl (step tc) []

/-- The dict keys of `active_positions`. -/
def addresses (ps : List Position) : List String :=
  ps.map (fun p => p.token_address)

/-- A position counts as live when its status is `OPEN` or `PARTIAL_CLOSE`. -/
def is_live (p : Position) : Bool :=
  (p.status == "OPEN") || (p.status == "PARTIAL_CLOSE")

/-- The claimed invariant of the `active_positions` dict: at most one entry
per asset address (Nodup keys), never more than `max_positions` entries, and
every stored position live (OPEN or PARTIAL_CLOSE). -/
def position_invariant (tc : TradingConfig) (ps : List Position) : Prop :=
  (addresses ps).Nodup ∧ ps.length ≤ tc.max_positions ∧ ∀ p ∈ ps, is_live p = true

/-- Embeds `timedelta.seconds` of a nonnegative Python `timedelta` of
`elapsed` whole seconds: the seconds-within-day component (days are a separate
field of `timedelta`). -/
def timedelta_seconds (elapsed : ℕ) : ℕ := elapsed % 86400

/-- Overwrite-or-append update of the `discovered_tokens` dict, keyed by
contract address and storing the discovery timestamp (in seconds). -/
def upsert (discovered : List (String × ℕ)) (addr : String) (now : ℕ) : List (String × ℕ) :=
  if discovered.any (fun e => e.1 == addr) then
    discovered.map (fun e => if e.1 == addr then (addr, now) else e)
  else discovered ++ [(addr, now)]

/-- Embeds the dedup step of `SolanaMemecoinBot._process_discoveries`
(solana_memecoin_bot.py, lines 426-438): a discovery whose address was stored
within the window — measured with `(datetime.now() - last.timestamp).seconds`,
i.e. `timedelta_seconds` — is dropped (`false`); otherwise it is stored and
admitted to the analysis queue (`true`). -/
def process_discovery (discovered : List (String × ℕ)) (addr : String) (now : ℕ) :
    List (String × ℕ) × Bool :=
  match (discovered.find? (fun e => e.1 == addr)) with
  | some e =>
      if timedelta_seconds (now - e.2) < 3600 then (discovered, false)
      else (upsert discovered addr now, true)
  | none => (upsert discovered addr now, true)

/-- The signature status reported by one `get_signature_status` poll. -/
inductive TxStatus where
  | confirmed
  | finalized
  | errored
  | pending
  | noStatus
deriving DecidableEq

/-- One poll iteration of `_wait_for_confirmation` (solana_trader.py,
lines 582-593): `some true` on a confirmed/finalized status, `some false` on a
transaction error, `none` when the loop keeps polling. -/
def confirmation_poll : TxStatus → Option Bool
  | TxStatus.confirmed => some true
  | TxStatus.finalized => some true
  | TxStatus.errored => some false
  | TxStatus.pending => none
  | TxStatus.noStatus => none

/-- The polling loop of `_wait_for_confirmation`: `fuel` remaining iterations,
polling the status stream at index `i` and sleeping the fixed interval between
polls; exhausted fuel is the 60-second timeout, which returns `False`
(solana_trader.py, lines 576-600). -/
def wait_loop (status : ℕ → TxStatus) : ℕ → ℕ → Bool
  | 0, _ => false
  | fuel + 1, i =>
      match confirmation_poll (status i) with
      | some b => b
      | none => wait_loop status fuel (i + 1)

/-- The confirmation timeout of `_wait_for_confirmation` in seconds. -/
def confirmation_timeout : ℕ := 60

/-- The sleep interval between confirmation polls in seconds
(`await asyncio.sleep(2)`). -/
def confirmation_interval : ℕ := 2

/-- Embeds `SolanaTrader._wait_for_confirmation` (solana_trader.py,
lines 576-600): poll up to `timeout / interval` times, returning `False` on
timeout or transaction error. -/
def wait_for_confirmation (status : ℕ → TxStatus) : Bool :=
  wait_loop status (confirmation_timeout / confirmation_interval) 0

/-- The success/error fields of a `TradeResult` (solana_trader.py,
lines 39-51). -/
structure TradeRes where
  success : Bool
  error : Option String
deriving DecidableEq

/-- Embeds the send-and-confirm tail of `SolanaTrader._execute_jupiter_swap`
(solana_trader.py, lines 394-415): when the transaction is accepted
(`result.value` truthy), `_wait_for_confirmation` is awaited but its result is
discarded, and a successful `TradeResult` is returned unconditionally; a
rejected send returns a failed result. -/
def execute_jupiter_swap (sendOk : Bool) (status : ℕ → TxStatus) : TradeRes :=
  if sendOk then
    let _ := wait_for_confirmation status
    { success := true, error := none }
  else { success := false, error := some "Transaction failed to send" }

/-- The environment a `buy_token` / `sell_token` call runs against: whether
the client and wallet are initialized, the balances the RPC reports, and the
quote and swap outcomes of the venues. -/
structure TraderEnv where
  initialized : Bool
  sol_balance : ℚ
  token_balance : ℚ
  buy_quote : Option ℚ
  sell_quote : Option ℚ
  swap_result : TradeRes
deriving DecidableEq

/-- Outcome of a `buy_token` / `sell_token` call: the returned `TradeResult`,
whether a swap execution was attempted, and whether a transaction was logged
(`_log_transaction` runs only on success). -/
structure TradeOutcome where
  result : TradeRes
  swap_executed : Bool
  logged : Bool
deriving DecidableEq

/-- Embeds `SolanaTrader.buy_token` (solana_trader.py, lines 110-151), check
order as in the source: client initialized, then quote, then SOL balance, then
execute and log on success. -/
def buy_token (env : TraderEnv) (amount_sol : ℚ) : TradeOutcome :=
  if env.initialized = false then
    { result := { success := false, error := some "Solana client not initialized" },
      swap_executed := false, logged := false }
  else
    match env.buy_quote with
    | none =>
        { result := { success := false, error := some "Failed to get quote" },
          swap_executed := false, logged := false }
    | some _ =>
        if env.sol_balance < amount_sol then
          { result := { success := false, error := some "Insufficient SOL balance" },
            swap_executed := false, logged := false }
        else
          { result := env.swap_result, swap_executed := true,
            logged := env.swap_result.success }

/-- Embeds `SolanaTrader.sell_token` (solana_trader.py, lines 153-194), check
order as in the source: client initialized, then token balance, then quote,
then execute and log on success. -/
def sell_token (env : TraderEnv) (amount_tokens : ℚ) : TradeOutcome :=
  if env.initialized = false then
    { result := { success := false, error := some "Solana client not initialized" },
      swap_executed := false, logged := false }
  else if env.token_balance < amount_tokens then
    { result := { success := false, error := some "Insufficient token balance" },
      swap_executed := false, logged := false }
  else
    match env.sell_quote with
    | none =>
        { result := { success := false, error := some "Failed to get quote" },
          swap_executed := false, logged := false }
    | some _ =>
        { result := env.swap_result, swap_executed := true,
          logged := env.swap_result.success }

/-- Market data making `_calculate_market_score` return exactly 0.8
(volume and liquidity at their caps, age at the full 24h decay, holders at the
cap), as in the spec's 0.88 scenario. -/
def mdC1 : MarketData :=
  { market_cap := 50000, liquidity := 50000, volume_24h := 10000, age_hours := 24,
    holder_count := 1000, liquidity_locked := true, mint_disabled := true }

/-- Market data passing every hard filter with market score exactly 1.0. -/
def mdGood : MarketData :=
  { market_cap := 50000, liquidity := 50000, volume_24h := 10000, age_hours := 0,
    holder_count := 1000, liquidity_locked := true, mint_disabled := true }

/-- An open position bought at entry price 100 under the default config
(stop-loss 50, take-profit 1000) whose current price sits exactly at the
take-profit target. -/
def c4Pos : Position :=
  { token_address := "mintA", symbol := "AAA", entry_price := 100, current_price := 1000,
    amount_sol := 1.5, tokens_held := 500, entry_hours := 0, status := "OPEN",
    pnl_percent := 0, stop_loss_price := 50, take_profit_price := 1000 }

/-- Like `c4Pos` but with the current price strictly between stop-loss and
take-profit. -/
def c4Mid : Position :=
  { token_address := "mintA", symbol := "AAA", entry_price := 100, current_price := 100,
    amount_sol := 1.5, tokens_held := 500, entry_hours := 0, status := "OPEN",
    pnl_percent := 0, stop_loss_price := 50, take_profit_price := 1000 }

/-- A partially closed position (moonbag kept after a take-profit). -/
def pcPos : Position :=
  { token_address := "mintB", symbol := "BBB", entry_price := 1, current_price := 1,
    amount_sol := 0.225, tokens_held := 75, entry_hours := 0, status := "PARTIAL_CLOSE",
    pnl_percent := 900, stop_loss_price := 0.5, take_profit_price := 10 }

/-- A trader environment with an initialized client, zero balances and no
obtainable quotes. -/
def c10Env : TraderEnv :=
  { initialized := true, sol_balance := 0, token_balance := 0, buy_quote := none,
    sell_quote := none, swap_result := { success := false, error := none } }

/-- A trader environment with an initialized client, zero balances, and quotes
available on both sides. -/
def c10EnvQ : TraderEnv :=
  { initialized := true, sol_balance := 0, token_balance := 0, buy_quote := some 1000,
    sell_quote := some 1, swap_result := { success := true, error := none } }

/-- A successful venue buy at price 100 yielding 500 tokens. -/
def buyOk : BuyResult := { success := true, price := 100, tokens_received := 500 }

/-- A single trade event admitting `buyOk` for address `mintA`. -/
def ev1 : Event := Event.trade false 0 ("mintA") ("AAA") buyOk


/-! ## Helper lemmas -/

/-- `calculate_market_score mdC1` is exactly 0.8. -/
theorem market_score_mdC1 : calculate_market_score mdC1 = 0.8 := by
  norm_num [calculate_market_score, mdC1, min_def, max_def]

/-- `calculate_market_score` never exceeds 1 (the source caps the sum). -/
theorem market_score_le_one (md : MarketData) : calculate_market_score md ≤ 1 := by
  unfold calculate_market_score
  exact le_trans (min_le_right _ _) (by norm_num)

/-- `calculate_market_score` is nonnegative when the raw market quantities
are. -/
theorem market_score_nonneg (md : MarketData) (hv : 0 ≤ md.volume_24h)
    (hl : 0 ≤ md.liquidity) (hh : 0 ≤ md.holder_count) :
    0 ≤ calculate_market_score md := by
  unfold calculate_market_score
  refine le_min ?_ (by norm_num)
  have h1 : (0:ℚ) ≤ min (md.volume_24h / 10000) 1.0 := le_min (by positivity) (by norm_num)
  have h2 : (0:ℚ) ≤ min (md.liquidity / 50000) 1.0 := le_min (by positivity) (by norm_num)
  have h3 : (0:ℚ) ≤ max 0 (1.0 - md.age_hours / 24) := le_max_left _ _
  have h4 : (0:ℚ) ≤ min (md.holder_count / 1000) 1.0 := le_min (by positivity) (by norm_num)
  nlinarith

/-- `refresh_price` changes only the current price and the PnL. -/
theorem refresh_price_address (price : Option ℚ) (p : Position) :
    (refresh_price price p).token_address = p.token_address ∧
    (refresh_price price p).status = p.status := by
  unfold refresh_price
  cases price with
  | none => exact ⟨rfl, rfl⟩
  | some pr => by_cases h0 : pr ≠ 0 <;> simp [h0]

/-- `apply_sell` keeps the dict key and makes the position PARTIAL_CLOSE when
it survives. -/
theorem apply_sell_some (tc : TradingConfig) (reason : String) (p q : Position)
    (h : apply_sell tc reason p = some q) :
    q.token_address = p.token_address ∧ q.status = "PARTIAL_CLOSE" := by
  unfold apply_sell at h
  split_ifs at h
  injection h with h
  rw [← h]
  exact ⟨rfl, rfl⟩

/-- `monitor_position` never changes the dict key of a surviving position. -/
theorem monitor_position_address (tc : TradingConfig) (now : ℚ) (price : Option ℚ)
    (sellOk : Bool) (p q : Position)
    (h : monitor_position tc now price sellOk p = some q) :
    q.token_address = p.token_address := by
  simp only [monitor_position] at h
  split_ifs at h with h1 h2 h3
  · injection h with h; rw [← h]
  · rw [(apply_sell_some tc _ _ q h).1, (refresh_price_address price p).1]
  · injection h with h; rw [← h, (refresh_price_address price p).1]
  · injection h with h; rw [← h, (refresh_price_address price p).1]

/-- A surviving position of `monitor_position` is live when the input was. -/
theorem monitor_position_live (tc : TradingConfig) (now : ℚ) (price : Option ℚ)
    (sellOk : Bool) (p q : Position) (hp : is_live p = true)
    (h : monitor_position tc now price sellOk p = some q) :
    is_live q = true := by
  simp only [monitor_position] at h
  split_ifs at h with h1 h2 h3
  · injection h with h; rw [← h]; exact hp
  · unfold is_live; rw [(apply_sell_some tc _ _ q h).2]; rfl
  · injection h with h; unfold is_live; rw [← h, (refresh_price_address price p).2]; exact hp
  · injection h with h; unfold is_live; rw [← h, (refresh_price_address price p).2]; exact hp

/-- The addresses of a monitor tick's result form a sublist of the input
addresses. -/
theorem monitor_tick_addresses_sublist (tc : TradingConfig) (now : ℚ)
    (oracle : String → Option ℚ) (sellOk : String → Bool) (ps : List Position) :
    (addresses (monitor_tick tc now oracle sellOk ps)).Sublist (addresses ps) := by
  induction ps with
  | nil => simp [monitor_tick, addresses]
  | cons p ps ih =>
    unfold monitor_tick addresses at ih ⊢
    rw [List.filterMap_cons]
    cases hmp : monitor_position tc now (oracle p.token_address) (sellOk p.token_address) p with
    | none => exact ih.cons _
    | some q =>
      rw [List.map_cons, List.map_cons,
        monitor_position_address tc now (oracle p.token_address) (sellOk p.token_address) p q hmp]
      exact ih.cons₂ _

/-- An address with no entry in the dict is not among its keys. -/
theorem find_none_not_mem (ps : List Position) (addr : String)
    (h : ¬(ps.find? (fun p => p.token_address == addr)).isSome = true) :
    addr ∉ addresses ps := by
  intro hmem
  apply h
  rw [List.find?_isSome]
  unfold addresses at hmem
  obtain ⟨p, hp, hpa⟩ := List.mem_map.1 hmem
  exact ⟨p, hp, by simp [hpa]⟩

/-- Every pipeline step preserves the position invariant. -/
theorem step_preserves_invariant (tc : TradingConfig) (ps : List Position) (e : Event)
    (h : position_invariant tc ps) : position_invariant tc (step tc ps e) := by
  obtain ⟨hnd, hle, hlive⟩ := h
  cases e with
  | trade paused now addr sym result =>
    simp only [step]
    split_ifs with hpa hlen
    · exact ⟨hnd, hle, hlive⟩
    · exact ⟨hnd, hle, hlive⟩
    · unfold execute_buy_order
      split_ifs with hfind hsucc
      · exact ⟨hnd, hle, hlive⟩
      · have hnm : addr ∉ addresses ps := find_none_not_mem ps addr (by simpa using hfind)
        refine ⟨?_, ?_, ?_⟩
        · unfold addresses at hnd hnm ⊢
          rw [List.map_append]
          rw [List.nodup_append]
          refine ⟨hnd, by simp [mk_position], ?_⟩
          intro a ha hb
          simp [mk_position] at hb
          exact hnm (hb ▸ ha)
        · rw [List.length_append]
          simp only [List.length_singleton]
          omega
        · intro p hp
          rcases List.mem_append.1 hp with hmem | hmem
          · exact hlive p hmem
          · rw [List.mem_singleton.1 hmem]
            rfl
      · exact ⟨hnd, hle, hlive⟩
  | monitor paused now oracle sellOk =>
    simp only [step]
    split_ifs with hpa
    · exact ⟨hnd, hle, hlive⟩
    · refine ⟨?_, ?_, ?_⟩
      · exact (monitor_tick_addresses_sublist tc now oracle sellOk ps).nodup hnd
      · have hl := (monitor_tick_addresses_sublist tc now oracle sellOk ps).length_le
        unfold addresses at hl
        rw [List.length_map, List.length_map] at hl
        omega
      · intro q hq
        rw [monitor_tick, List.mem_filterMap] at hq
        obtain ⟨p, hp, hmp⟩ := hq
        exact monitor_position_live tc now _ _ p q (hlive p hp) hmp

/-- The position invariant holds at every reachable state of the pipeline. -/
theorem run_invariant (tc : TradingConfig) (events : List Event) :
    position_invariant tc (run tc events) := by
  suffices h : ∀ ps, position_invariant tc ps →
      position_invariant tc (events.foldl (step tc) ps) from
    h [] ⟨by simp [addresses], by simp, by simp⟩
  induction events with
  | nil => exact fun ps h => h
  | cons e es ih => exact fun ps h => ih _ (step_preserves_invariant tc ps e h)

/-! ## Claim theorems -/

/-- C1: the combined recommendation score of `_get_recommendation` does NOT
equal `0.4·(safety_score/100) + 0.4·ai_probability + 0.2·market_condition_score`:
with safety_score = 90, ai_probability = 0.9 and market_condition_score = 0.8
the code computes `(90·0.4 + 0.9·100·0.4 + 0.8·0.2)/100 = 0.7216` — the market
score is not rescaled to the 0-100 range like the AI score — and recommends
MONITOR, while the claimed formula gives 0.88 and BUY. -/
theorem C1_combined_score_eval :
    calculate_market_score mdC1 = 0.8 ∧
    combined_score 90 0.9 (calculate_market_score mdC1) = 0.7216 ∧
    spec_combined_score 90 0.9 (calculate_market_score mdC1) = 0.88 ∧
    combined_score 90 0.9 (calculate_market_score mdC1) ≠
      spec_combined_score 90 0.9 (calculate_market_score mdC1) ∧
    get_recommendation filter_config 90 mdC1 0.9 = "MONITOR" ∧
    get_recommendation filter_config 90 mdC1 0.9 ≠ "BUY" := by
  have hms := market_score_mdC1
  refine ⟨hms, ?_, ?_, ?_, ?_, ?_⟩
  · rw [hms]; norm_num [combined_score]
  · rw [hms]; norm_num [spec_combined_score]
  · rw [hms]; norm_num [combined_score, spec_combined_score]
  · norm_num [get_recommendation, filter_config, hms, combined_score]
  · norm_num [get_recommendation, filter_config, hms, combined_score]
    decide

/-- C6: the dedup window of `_process_discoveries` is measured with
`timedelta.seconds`. A same-address signal 1800 s after admission is dropped
and one 7200 s after is admitted again (both as the claim says), but a repeat
86400 s (24 h) later — long after the 1-hour window expired — is still
dropped, because `timedelta.seconds` wraps at one day
(86400 mod 86400 = 0 < 3600), contradicting the claim that a repeat after the
expired window is admitted again. -/
theorem C6_dedup_eval :
    (process_discovery [] ("mint") 0).2 = true ∧
    (process_discovery (process_discovery [] ("mint") 0).1 ("mint") 1800).2 = false ∧
    (process_discovery (process_discovery [] ("mint") 0).1 ("mint") 7200).2 = true ∧
    (process_discovery (process_discovery [] ("mint") 0).1 ("mint") 86400).2 = false := by
  exact ⟨by decide, by decide, by decide, by decide⟩

/-- C7: `_wait_for_confirmation` polls up to 60 s at a 2 s interval and
returns `False` when the transaction never confirms, but
`_execute_jupiter_swap` discards that result: after a successful send whose
confirmation polling times out, the returned `TradeResult` still has
`success = True`, contradicting the claim that a confirmation timeout is
reported as a (non-fatal) failure. -/
theorem C7_confirmation_eval :
    confirmation_timeout = 60 ∧ confirmation_interval = 2 ∧
    wait_for_confirmation (fun _ => TxStatus.pending) = false ∧
    (execute_jupiter_swap true (fun _ => TxStatus.pending)).success = true ∧
    (execute_jupiter_swap true (fun _ => TxStatus.pending)).error = none := by
  exact ⟨rfl, rfl, by decide, by decide, by decide⟩

/-- C4 counterexample: a position 25 hours old (max hold is 24 h) whose price
reached the take-profit target exits with reason TAKE_PROFIT, not TIME_LIMIT —
so a position older than the max-hold duration does not trigger TIME_LIMIT
"regardless of price". -/
theorem C4_counterexample :
    (25 : ℚ) - c4Pos.entry_hours ≥ 24 ∧
    check_exit_conditions 25 c4Pos = (true, "TAKE_PROFIT") ∧
    (check_exit_conditions 25 c4Pos).2 ≠ "TIME_LIMIT" := by
  have h : check_exit_conditions 25 c4Pos = (true, "TAKE_PROFIT") := by
    norm_num [check_exit_conditions, c4Pos]
  exact ⟨by norm_num [c4Pos], h, by rw [h]; decide⟩

/-- C8 counterexample: on a monitor tick, a position with status
PARTIAL_CLOSE is skipped by `if position.status != 'OPEN': continue` — even
with a fresh price (2) available from the oracle it keeps its stale
current_price (1) and stale PnL, so not every OPEN/PARTIAL_CLOSE position is
refreshed and evaluated. -/
theorem C8_counterexample :
    pcPos.status = "PARTIAL_CLOSE" ∧
    monitor_position trading_config 30 (some 2) true pcPos = some pcPos ∧
    pcPos.current_price ≠ 2 ∧
    pcPos.pnl_percent ≠ (2 - pcPos.entry_price) / pcPos.entry_price * 100 := by
  refine ⟨rfl, by simp [monitor_position, pcPos], ?_, ?_⟩
  · norm_num [pcPos]
  · norm_num [pcPos]

/-- C9 counterexample: a signal whose AI-prediction step fails (the predictor
resolves the failure to success_probability 0.5) while the safety score is 100
and the market data passes the hard filters is assessed as MONITOR
(combined = (100·0.4 + 0.5·100·0.4 + 1·0.2)/100 = 0.602 ≥ 0.6) with
filter_passed true, not as the PASS assessment the claim requires for every
upstream failure. -/
theorem C9_counterexample :
    (analyze_token filter_config (some 100) (some mdGood) none).recommendation = "MONITOR" ∧
    (analyze_token filter_config (some 100) (some mdGood) none).recommendation ≠ "PASS" ∧
    (analyze_token filter_config (some 100) (some mdGood) none).filter_passed = true := by
  have h : analyze_token filter_config (some 100) (some mdGood) none =
      { safety_score := 100, market_data := mdGood, ai_prediction := some 0.5,
        filter_passed := true, recommendation := "MONITOR" } := by
    norm_num [analyze_token, resolve_safety, resolve_market, resolve_ai, filter_config,
      check_market_filters, mdGood, get_recommendation, combined_score, calculate_market_score,
      min_def, max_def]
  rw [h]
  exact ⟨rfl, by decide, rfl⟩

/-- C10 counterexample: `buy_token` fetches the quote before checking the SOL
balance, so with an initialized client, zero balance and a failing quote fetch
the returned error is "Failed to get quote", not an insufficient-balance
report, even though the balance (0) is strictly below the requested amount
(the default 1.5 SOL buy size). -/
theorem C10_counterexample :
    c10Env.sol_balance < (1.5 : ℚ) ∧
    (buy_token c10Env 1.5).result.success = false ∧
    (buy_token c10Env 1.5).result.error = some ("Failed to get quote") ∧
    (buy_token c10Env 1.5).result.error ≠ some ("Insufficient SOL balance") := by
  have h : buy_token c10Env 1.5 =
      { result := { success := false, error := some "Failed to get quote" },
        swap_executed := false, logged := false } := by
    norm_num [buy_token, c10Env]
  refine ⟨by norm_num [c10Env], by rw [h], by rw [h], by rw [h]; decide⟩

/-- C2: at every reachable state of the trading pipeline the active-positions
dict has pairwise distinct asset addresses (so at most one OPEN/PARTIAL_CLOSE
position per address — every stored position is live), the number of open
positions never exceeds `max_positions`, and `_execute_buy_order` rejects a
buy for an address that already has a position. -/
theorem C2_position_invariants (tc : TradingConfig) (events : List Event) :
    (addresses (run tc events)).Nodup ∧
    (run tc events).length ≤ tc.max_positions ∧
    (∀ p ∈ run tc events, is_live p = true) ∧
    (∀ (now : ℚ) (ps : List Position) (addr sym : String) (result : BuyResult),
        (ps.find? (fun p => p.token_address == addr)).isSome = true →
        execute_buy_order tc now ps addr sym result = ps) := by
  obtain ⟨h1, h2, h3⟩ := run_invariant tc events
  refine ⟨h1, h2, h3, ?_⟩
  intro now ps addr sym result hfind
  unfold execute_buy_order
  rw [if_pos hfind]

/-- Witness for C2: after one admitted buy event the invariant holds, and a
second buy for an address that already holds a position leaves the dict
unchanged. -/
theorem C2_position_invariants_witness :
    (addresses (run trading_config [ev1])).Nodup ∧
    (run trading_config [ev1]).length ≤ trading_config.max_positions ∧
    execute_buy_order trading_config 0 [c4Pos] ("mintA") ("AAA") buyOk = [c4Pos] := by
  obtain ⟨h1, h2, h3, h4⟩ := C2_position_invariants trading_config [ev1]
  exact ⟨h1, h2, h4 0 [c4Pos] ("mintA") ("AAA") buyOk (by decide)⟩

/-- Every `TokenAnalysis` produced by `_analyze_token` has `filter_passed`
true exactly when its recommendation is BUY or MONITOR. -/
theorem filter_passed_iff (fc : FilterConfig) (sf : Option ℤ) (mf : Option MarketData)
    (af : Option ℚ) :
    (analyze_token fc sf mf af).filter_passed = true ↔
      ((analyze_token fc sf mf af).recommendation = "BUY" ∨
       (analyze_token fc sf mf af).recommendation = "MONITOR") := by
  simp only [analyze_token]
  split_ifs with h1 h2
  · simp
  · simp
  · simp [Bool.or_eq_true, beq_iff_eq]

/-- C3: for scores the scorer actually produces (inputs in their documented
ranges, safety score at or above the configured minimum so that
`_get_recommendation` reaches the combined score), the combined score lies in
[0,1]; the recommendation is BUY iff score ≥ 0.75, MONITOR iff
0.60 ≤ score < 0.75 and PASS iff score < 0.60; and every produced
`TokenAnalysis` has `filter_passed` true iff its recommendation is BUY or
MONITOR. -/
theorem C3_score_bounds (fc : FilterConfig) (safety : ℤ) (md : MarketData) (ai : ℚ)
    (hs0 : 0 ≤ safety) (hs1 : safety ≤ 100) (ha0 : 0 ≤ ai) (ha1 : ai ≤ 1)
    (hv : 0 ≤ md.volume_24h) (hl : 0 ≤ md.liquidity) (hh : 0 ≤ md.holder_count)
    (hmin : fc.min_safety_score ≤ safety) :
    0 ≤ combined_score safety ai (calculate_market_score md) ∧
    combined_score safety ai (calculate_market_score md) ≤ 1 ∧
    (get_recommendation fc safety md ai = "BUY" ↔
      combined_score safety ai (calculate_market_score md) ≥ 0.75) ∧
    (get_recommendation fc safety md ai = "MONITOR" ↔
      (0.6 ≤ combined_score safety ai (calculate_market_score md) ∧
       combined_score safety ai (calculate_market_score md) < 0.75)) ∧
    (get_recommendation fc safety md ai = "PASS" ↔
      combined_score safety ai (calculate_market_score md) < 0.6) ∧
    (∀ (sf : Option ℤ) (mf : Option MarketData) (af : Option ℚ),
      (analyze_token fc sf mf af).filter_passed = true ↔
        ((analyze_token fc sf mf af).recommendation = "BUY" ∨
         (analyze_token fc sf mf af).recommendation = "MONITOR")) := by
  have hms0 : 0 ≤ calculate_market_score md := market_score_nonneg md hv hl hh
  have hms1 : calculate_market_score md ≤ 1 := market_score_le_one md
  have hsq0 : (0 : ℚ) ≤ (safety : ℚ) := by exact_mod_cast hs0
  have hsq1 : (safety : ℚ) ≤ 100 := by exact_mod_cast hs1
  have hc0 : 0 ≤ combined_score safety ai (calculate_market_score md) := by
    unfold combined_score
    apply div_nonneg _ (by norm_num)
    nlinarith
  have hc1 : combined_score safety ai (calculate_market_score md) ≤ 1 := by
    unfold combined_score
    rw [div_le_one (by norm_num)]
    nlinarith
  have hrec : get_recommendation fc safety md ai =
      (if combined_score safety ai (calculate_market_score md) ≥ 0.75 then "BUY"
       else if combined_score safety ai (calculate_market_score md) ≥ 0.6 then "MONITOR"
       else "PASS") := by
    simp only [get_recommendation]
    rw [if_neg (not_lt.2 hmin)]
  refine ⟨hc0, hc1, ?_, ?_, ?_, fun sf mf af => filter_passed_iff fc sf mf af⟩
  · rw [hrec]
    by_cases h75 : combined_score safety ai (calculate_market_score md) ≥ 0.75
    · rw [if_pos h75]
      exact iff_of_true rfl h75
    · rw [if_neg h75]
      by_cases h60 : combined_score safety ai (calculate_market_score md) ≥ 0.6 <;>
        [rw [if_pos h60]; rw [if_neg h60]] <;>
        exact iff_of_false (by decide) h75
  · rw [hrec]
    by_cases h75 : combined_score safety ai (calculate_market_score md) ≥ 0.75
    · rw [if_pos h75]
      exact iff_of_false (by decide) (fun hcon => absurd h75 (not_le.2 hcon.2))
    · rw [if_neg h75]
      by_cases h60 : combined_score safety ai (calculate_market_score md) ≥ 0.6
      · rw [if_pos h60]
        exact iff_of_true rfl ⟨h60, not_le.1 h75⟩
      · rw [if_neg h60]
        exact iff_of_false (by decide) (fun hcon => absurd hcon.1 h60)
  · rw [hrec]
    by_cases h75 : combined_score safety ai (calculate_market_score md) ≥ 0.75
    · rw [if_pos h75]
      exact iff_of_false (by decide) (not_lt.2 (le_trans (by norm_num) h75))
    · rw [if_neg h75]
      by_cases h60 : combined_score safety ai (calculate_market_score md) ≥ 0.6
      · rw [if_pos h60]
        exact iff_of_false (by decide) (not_lt.2 h60)
      · rw [if_neg h60]
        exact iff_of_true rfl (not_le.1 h60)

/-- Witness for C3: at safety 90, AI probability 0.9 and the 0.8-market-score
data, the combined score is in bounds and the recommendation is MONITOR
(0.6 ≤ 0.7216 < 0.75). -/
theorem C3_score_bounds_witness :
    0 ≤ combined_score 90 0.9 (calculate_market_score mdC1) ∧
    combined_score 90 0.9 (calculate_market_score mdC1) ≤ 1 ∧
    get_recommendation filter_config 90 mdC1 0.9 = "MONITOR" := by
  obtain ⟨h0, h1, _, hmon, _, _⟩ :=
    C3_score_bounds filter_config 90 mdC1 0.9 (by norm_num) (by norm_num) (by norm_num)
      (by norm_num) (by norm_num [mdC1]) (by norm_num [mdC1]) (by norm_num [mdC1])
      (by norm_num [filter_config])
  refine ⟨h0, h1, hmon.2 ?_⟩
  rw [market_score_mdC1]
  norm_num [combined_score]

/-- C4 (amended): a position created by a successful buy at entry price p
carries stop_loss_price = p·(1 − stop_loss_pct) and take_profit_price =
p·take_profit_multiplier (so entry 100 under the default config gives stop 50
and take-profit 1000); the exit check returns TAKE_PROFIT when
current_price ≥ take_profit_price, else STOP_LOSS when
current_price ≤ stop_loss_price, else TIME_LIMIT when the position is at
least 24 hours old; a position older than the max hold always triggers an
exit, but the reason is TIME_LIMIT only when neither the take-profit nor the
stop-loss condition holds. -/
theorem C4_exit_rules (tc : TradingConfig) (now : ℚ) (p : Position) :
    (p.current_price ≥ p.take_profit_price →
        check_exit_conditions now p = (true, "TAKE_PROFIT")) ∧
    (¬p.current_price ≥ p.take_profit_price → p.current_price ≤ p.stop_loss_price →
        check_exit_conditions now p = (true, "STOP_LOSS")) ∧
    (¬p.current_price ≥ p.take_profit_price → ¬p.current_price ≤ p.stop_loss_price →
        now - p.entry_hours ≥ 24 → check_exit_conditions now p = (true, "TIME_LIMIT")) ∧
    (now - p.entry_hours ≥ 24 → (check_exit_conditions now p).1 = true) ∧
    (∀ (addr sym : String) (r : BuyResult),
        (mk_position tc now addr sym r).stop_loss_price =
          r.price * (1 - tc.stop_loss_percentage) ∧
        (mk_position tc now addr sym r).take_profit_price =
          r.price * tc.take_profit_multiplier) ∧
    (∀ (addr sym : String) (r : BuyResult), r.price = 100 →
        (mk_position trading_config now addr sym r).stop_loss_price = 50 ∧
        (mk_position trading_config now addr sym r).take_profit_price = 1000) := by
  refine ⟨?_, ?_, ?_, ?_, ?_, ?_⟩
  · intro htp
    unfold check_exit_conditions
    rw [if_pos htp]
  · intro htp hsl
    unfold check_exit_conditions
    rw [if_neg htp, if_pos hsl]
  · intro htp hsl htime
    unfold check_exit_conditions
    rw [if_neg htp, if_neg hsl, if_pos htime]
  · intro htime
    unfold check_exit_conditions
    by_cases htp : p.current_price ≥ p.take_profit_price
    · rw [if_pos htp]
    · rw [if_neg htp]
      by_cases hsl : p.current_price ≤ p.stop_loss_price
      · rw [if_pos hsl]
      · rw [if_neg hsl, if_pos htime]
  · exact fun addr sym r => ⟨rfl, rfl⟩
  · intro addr sym r hprice
    unfold mk_position
    rw [hprice]
    norm_num [trading_config]

/-- Witness for C4: a 25-hour-old position priced strictly between stop-loss
and take-profit exits with TIME_LIMIT, and the default-config position bought
at price 100 has stop 50 and take-profit 1000. -/
theorem C4_exit_rules_witness :
    check_exit_conditions 25 c4Mid = (true, "TIME_LIMIT") ∧
    (mk_position trading_config 25 ("mintA") ("AAA") buyOk).stop_loss_price = 50 ∧
    (mk_position trading_config 25 ("mintA") ("AAA") buyOk).take_profit_price = 1000 := by
  obtain ⟨h1, h2, h3, h4, h5, h6⟩ := C4_exit_rules trading_config 25 c4Mid
  refine ⟨h3 ?_ ?_ ?_, ?_, ?_⟩
  · norm_num [c4Mid]
  · norm_num [c4Mid]
  · norm_num [c4Mid]
  · exact (h6 ("mintA") ("AAA") buyOk (by norm_num [buyOk])).1
  · exact (h6 ("mintA") ("AAA") buyOk (by norm_num [buyOk])).2

/-- C5: on a successfully executed exit, TAKE_PROFIT sells the fraction
1 − moonbag_pct, leaving exactly moonbag_pct of the tokens and of the
committed SOL on the position (remaining = held − held·(1 − moonbag)) with
status PARTIAL_CLOSE; STOP_LOSS and TIME_LIMIT sell 100% and the position is
deleted from the ledger (closed). Stated for any moonbag fraction strictly
between 0 and 1, as the default 0.15 is. -/
theorem C5_moonbag (tc : TradingConfig) (hm0 : 0 < tc.moonbag_percentage)
    (_hm1 : tc.moonbag_percentage < 1) (p : Position) :
    sell_percentage tc ("TAKE_PROFIT") = 1 - tc.moonbag_percentage ∧
    apply_sell tc ("TAKE_PROFIT") p = some { p with
      status := "PARTIAL_CLOSE",
      tokens_held := p.tokens_held * tc.moonbag_percentage,
      amount_sol := p.amount_sol * tc.moonbag_percentage } ∧
    p.tokens_held * tc.moonbag_percentage =
      p.tokens_held - p.tokens_held * sell_percentage tc ("TAKE_PROFIT") ∧
    p.amount_sol * tc.moonbag_percentage =
      p.amount_sol - p.amount_sol * sell_percentage tc ("TAKE_PROFIT") ∧
    (∀ reason : String, reason = "STOP_LOSS" ∨ reason = "TIME_LIMIT" →
      sell_percentage tc reason = 1 ∧ apply_sell tc reason p = none) := by
  have hsp : sell_percentage tc ("TAKE_PROFIT") = 1 - tc.moonbag_percentage := by
    unfold sell_percentage
    norm_num
  refine ⟨hsp, ?_, by rw [hsp]; ring, by rw [hsp]; ring, ?_⟩
  · unfold apply_sell
    rw [if_neg]
    rw [hsp]
    intro hcon
    norm_num at hcon
    exact absurd hcon (ne_of_gt hm0)
  · intro reason hr
    have hne : (reason == "TAKE_PROFIT") = false := by
      rcases hr with h | h <;> subst h <;> decide
    have hsp1 : sell_percentage tc reason = 1 := by
      unfold sell_percentage
      rw [hne]
      norm_num
    refine ⟨hsp1, ?_⟩
    unfold apply_sell
    rw [if_pos]
    rw [hsp1]
    norm_num

/-- Witness for C5 at the default config (moonbag 0.15) and a concrete
position: TAKE_PROFIT sells 85% and keeps a PARTIAL_CLOSE moonbag; STOP_LOSS
removes the position. -/
theorem C5_moonbag_witness :
    sell_percentage trading_config ("TAKE_PROFIT") = 1 - trading_config.moonbag_percentage ∧
    apply_sell trading_config ("TAKE_PROFIT") c4Pos = some { c4Pos with
      status := "PARTIAL_CLOSE",
      tokens_held := c4Pos.tokens_held * trading_config.moonbag_percentage,
      amount_sol := c4Pos.amount_sol * trading_config.moonbag_percentage } ∧
    apply_sell trading_config ("STOP_LOSS") c4Pos = none := by
  obtain ⟨h1, h2, h3, h4, h5⟩ :=
    C5_moonbag trading_config (by norm_num [trading_config]) (by norm_num [trading_config]) c4Pos
  exact ⟨h1, h2, (h5 ("STOP_LOSS") (Or.inl rfl)).2⟩

/-- C8 (amended): on a monitor tick only positions with status OPEN are
processed — a PARTIAL_CLOSE position is skipped and kept unchanged (its price
is not refreshed). Every OPEN position whose price lookup returns a truthy
value gets current_price set to it and PnL% recomputed as
(current − entry)/entry·100; its exit conditions are evaluated on the
refreshed position: with no exit triggered the refreshed position stays in
the ledger, and with an exit triggered and a successful sell the outcome of
`_execute_sell_order` replaces it. -/
theorem C8_monitor_rules (tc : TradingConfig) (now : ℚ) (oracle : String → Option ℚ)
    (sellOk : String → Bool) (ps : List Position) (p : Position) (hp : p ∈ ps) :
    (p.status = "PARTIAL_CLOSE" → p ∈ monitor_tick tc now oracle sellOk ps) ∧
    (∀ pr : ℚ, p.status = "OPEN" → oracle p.token_address = some pr → pr ≠ 0 →
      (refresh_price (some pr) p).current_price = pr ∧
      (refresh_price (some pr) p).pnl_percent = (pr - p.entry_price) / p.entry_price * 100 ∧
      ((check_exit_conditions now (refresh_price (some pr) p)).1 = false →
          refresh_price (some pr) p ∈ monitor_tick tc now oracle sellOk ps) ∧
      (∀ q : Position, (check_exit_conditions now (refresh_price (some pr) p)).1 = true →
          sellOk p.token_address = true →
          apply_sell tc (check_exit_conditions now (refresh_price (some pr) p)).2
            (refresh_price (some pr) p) = some q →
          q ∈ monitor_tick tc now oracle sellOk ps)) := by
  constructor
  · intro hst
    refine List.mem_filterMap.2 ⟨p, hp, ?_⟩
    unfold monitor_position
    rw [if_pos]
    rw [hst]
    decide
  · intro pr hst hor hpr
    have hcp : (refresh_price (some pr) p).current_price = pr ∧
        (refresh_price (some pr) p).pnl_percent =
          (pr - p.entry_price) / p.entry_price * 100 := by
      simp only [refresh_price]
      rw [if_pos hpr]
      exact ⟨rfl, rfl⟩
    have hopen : ¬p.status ≠ "OPEN" := by
      rw [hst]
      simp
    refine ⟨hcp.1, hcp.2, ?_, ?_⟩
    · intro hec
      refine List.mem_filterMap.2 ⟨p, hp, ?_⟩
      simp only [monitor_position]
      rw [if_neg hopen, hor, hec]
      simp
    · intro q hec hsell hap
      refine List.mem_filterMap.2 ⟨p, hp, ?_⟩
      simp only [monitor_position]
      rw [if_neg hopen, hor, hec, hsell]
      simpa using hap

/-- Witness for C8: a skipped PARTIAL_CLOSE position remains in the tick's
output unchanged, and an OPEN position refreshed to price 200 (no exit
triggered at 0 hours) remains with updated price and 100% PnL. -/
theorem C8_monitor_rules_witness :
    pcPos ∈ monitor_tick trading_config 0 (fun _ => some 200) (fun _ => true) [pcPos, c4Mid] ∧
    (refresh_price (some 200) c4Mid).current_price = 200 ∧
    (refresh_price (some 200) c4Mid).pnl_percent =
      (200 - c4Mid.entry_price) / c4Mid.entry_price * 100 ∧
    refresh_price (some 200) c4Mid ∈
      monitor_tick trading_config 0 (fun _ => some 200) (fun _ => true) [pcPos, c4Mid] := by
  obtain ⟨hskip, _⟩ := C8_monitor_rules trading_config 0 (fun _ => some 200) (fun _ => true)
    [pcPos, c4Mid] pcPos (by simp)
  obtain ⟨_, hopen⟩ := C8_monitor_rules trading_config 0 (fun _ => some 200) (fun _ => true)
    [pcPos, c4Mid] c4Mid (by simp)
  obtain ⟨h1, h2, h3, _⟩ := hopen 200 rfl rfl (by norm_num)
  refine ⟨hskip rfl, h1, h2, h3 ?_⟩
  have : refresh_price (some 200) c4Mid = { c4Mid with current_price := 200, pnl_percent := 100 } := by
    norm_num [refresh_price, c4Mid]
  rw [this]
  norm_num [check_exit_conditions, c4Mid]

/-- C9 (amended): a data-source failure during the safety-score fetch
resolves the score to 0 and yields a PASS assessment with empty market data;
a market-data fetch failure resolves to the empty snapshot, fails the hard
filters and yields a PASS assessment with the safety score kept; an
AI-prediction failure resolves the success probability to 0.5 and scoring
proceeds — the assessment is PASS whenever safety_score ≤ 99, and is never
BUY for any safety_score ≤ 100 (but can be MONITOR at safety_score = 100, see
the counterexample). In every such case an assessment is produced rather than
the pipeline crashing. -/
theorem C9_failure_semantics :
    (∀ (mf : Option MarketData) (af : Option ℚ),
      (analyze_token filter_config none mf af).recommendation = "PASS" ∧
      (analyze_token filter_config none mf af).filter_passed = false ∧
      (analyze_token filter_config none mf af).market_data = emptyMarketData) ∧
    (∀ (s : ℤ) (af : Option ℚ),
      (analyze_token filter_config (some s) none af).recommendation = "PASS" ∧
      (analyze_token filter_config (some s) none af).filter_passed = false) ∧
    (∀ (s : ℤ) (mf : Option MarketData), s ≤ 99 →
      (analyze_token filter_config (some s) mf none).recommendation = "PASS") ∧
    (∀ (s : ℤ) (mf : Option MarketData), s ≤ 100 →
      (analyze_token filter_config (some s) mf none).recommendation ≠ "BUY") := by
  have hfc : filter_config.min_safety_score = 80 := rfl
  refine ⟨?_, ?_, ?_, ?_⟩
  · intro mf af
    simp only [analyze_token, resolve_safety]
    rw [if_pos (by rw [hfc]; norm_num)]
    exact ⟨rfl, rfl, rfl⟩
  · intro s af
    simp only [analyze_token, resolve_safety]
    split_ifs with h1 h2
    · exact ⟨rfl, rfl⟩
    · exact ⟨rfl, rfl⟩
    · exact absurd (by norm_num [resolve_market, check_market_filters, emptyMarketData,
        filter_config] : check_market_filters filter_config (resolve_market none) = false) h2
  · intro s mf hs99
    have hsq : (s : ℚ) ≤ 99 := by exact_mod_cast hs99
    have hms := market_score_le_one (resolve_market mf)
    simp only [analyze_token, resolve_safety]
    split_ifs with h1 h2
    · rfl
    · rfl
    · have hc : combined_score s (resolve_ai none)
          (calculate_market_score (resolve_market mf)) < 0.6 := by
        unfold combined_score resolve_ai
        rw [div_lt_iff₀ (by norm_num)]
        nlinarith [hsq, hms]
      simp only [get_recommendation]
      rw [if_neg h1, if_neg (not_le.2 (lt_of_lt_of_le hc (by norm_num))), if_neg (not_le.2 hc)]
  · intro s mf hs100
    have hsq : (s : ℚ) ≤ 100 := by exact_mod_cast hs100
    have hms := market_score_le_one (resolve_market mf)
    simp only [analyze_token, resolve_safety]
    split_ifs with h1 h2
    · exact (by decide : ("PASS" : String) ≠ "BUY")
    · exact (by decide : ("PASS" : String) ≠ "BUY")
    · have hc : combined_score s (resolve_ai none)
          (calculate_market_score (resolve_market mf)) < 0.75 := by
        unfold combined_score resolve_ai
        rw [div_lt_iff₀ (by norm_num)]
        nlinarith [hsq, hms]
      simp only [get_recommendation]
      rw [if_neg h1, if_neg (not_le.2 hc)]
      split_ifs <;> decide

/-- Witness for C9: concrete instances of the failure semantics — a failed
safety fetch is assessed PASS; a failed market fetch at safety 95 is assessed
PASS; a failed AI prediction at safety 99 with filter-passing market data is
assessed PASS; and at safety 100 it is still not BUY. -/
theorem C9_failure_semantics_witness :
    (analyze_token filter_config none (some mdGood) (some 0.9)).recommendation = "PASS" ∧
    (analyze_token filter_config (some 95) none (some 0.9)).recommendation = "PASS" ∧
    (analyze_token filter_config (some 99) (some mdGood) none).recommendation = "PASS" ∧
    (analyze_token filter_config (some 100) (some mdGood) none).recommendation ≠ "BUY" := by
  obtain ⟨h1, h2, h3, h4⟩ := C9_failure_semantics
  exact ⟨(h1 (some mdGood) (some 0.9)).1, (h2 95 (some 0.9)).1,
    h3 99 (some mdGood) (by norm_num), h4 100 (some mdGood) (by norm_num)⟩

/-- C10 (amended): whenever `buy_token` reaches its balance check (client
initialized and a quote obtained — the quote is fetched before the balance
check, so a quote failure is reported instead) with the wallet's SOL balance
strictly below the requested amount, it returns a failed TradeResult
reporting insufficient balance, executes no swap and logs no transaction;
`sell_token` checks the token balance before quoting, so with an initialized
client it reports insufficient token balance whenever the token balance is
below the requested token amount, likewise with no swap and no log. -/
theorem C10_insufficient_balance (env : TraderEnv) (amount : ℚ)
    (hinit : env.initialized = true) :
    (env.buy_quote.isSome = true → env.sol_balance < amount →
      buy_token env amount =
        { result := { success := false, error := some "Insufficient SOL balance" },
          swap_executed := false, logged := false }) ∧
    (env.token_balance < amount →
      sell_token env amount =
        { result := { success := false, error := some "Insufficient token balance" },
          swap_executed := false, logged := false }) := by
  constructor
  · intro hq hbal
    unfold buy_token
    rw [if_neg (by rw [hinit]; simp)]
    obtain ⟨q, hq'⟩ := Option.isSome_iff_exists.1 hq
    rw [hq']
    simp only
    rw [if_pos hbal]
  · intro hbal
    unfold sell_token
    rw [if_neg (by rw [hinit]; simp), if_pos hbal]

/-- Witness for C10: with an initialized client, quotes available and zero
balances, a 1.5-SOL buy and a 100-token sell both fail with the
insufficient-balance error, execute no swap and log nothing. -/
theorem C10_insufficient_balance_witness :
    buy_token c10EnvQ 1.5 =
      { result := { success := false, error := some "Insufficient SOL balance" },
        swap_executed := false, logged := false } ∧
    sell_token c10EnvQ 100 =
      { result := { success := false, error := some "Insufficient token balance" },
        swap_executed := false, logged := false } := by
  obtain ⟨h1, h2⟩ := C10_insufficient_balance c10EnvQ 1.5 rfl
  obtain ⟨_, h3⟩ := C10_insufficient_balance c10EnvQ 100 rfl
  exact ⟨h1 rfl (by norm_num [c10EnvQ]), h3 (by norm_num [c10EnvQ])⟩
